import Mathlib

/-!
Verification development for the Tamaki sensor-hub repository.

The repository consists of near-duplicate Python variants of one program: a
sampling loop that polls magnetometer or rotary-encoder sensors and streams
readings over UDP, plus a concurrently running JSON command listener.

This file shallowly embeds the functions that the claims of the spec concern:
* the per-datagram behaviour of `command_listener`
  (src/timemachine_udp_sender.py lines 212-295, structurally identical in
  src/tamaki_udp_sender.py and src/blackberryBackup/tamaki_udp_sender.py
  apart from the system-action gate),
* the payload builders `read_sensors_and_build_json` of the blackberry /
  plain tamaki variants and of the release_mk2 variant,
* `read_rotary` and the OSC helpers `_osc_pad4` / `osc_message` of
  src/timemachine_udp_sender.py,
* the end-of-tick pacing computation of the main loops.

Python floats are modelled as rationals; hardware reads and JSON parsing are
modelled by explicit oracles (an exception during a read is an oracle value
of `none`); the network side effects of the listener are modelled as an
ordered event list (replies sent, host actions invoked).
-/

namespace Tamaki

/-- A parsed JSON value, as produced by the Python `json.loads`.  Booleans are
kept distinct from numbers; numbers are modelled as rationals. -/
inductive JVal where
  | null : JVal
  | bool (b : Bool) : JVal
  | num (q : ℚ) : JVal
  | str (s : String) : JVal
  | arr (xs : List JVal) : JVal
  | obj (fields : List (String × JVal)) : JVal

/-- `d.get(k)` on a Python dict made by `json.loads`: the last occurrence of a
duplicate key wins; a missing key yields `None`. -/
def jget (fields : List (String × JVal)) (k : String) : Option JVal :=
  List.lookup k fields.reverse

/-- The Python test `isinstance(v, (int, float))`.  `bool` is a subclass of `int`,
so JSON booleans pass this test (src/timemachine_udp_sender.py line 254). -/
def py_is_num : JVal → Bool
  | JVal.num _ => true
  | JVal.bool _ => true
  | _ => false

/-- The Python comparison `v >= 0` on a value that passed `isinstance(v, (int, float))`:
`True` counts as 1 and `False` as 0. -/
def py_nonneg : JVal → Bool
  | JVal.num q => decide (0 ≤ q)
  | JVal.bool _ => true
  | _ => false

/-- The Python conversion `float(v)` on a value that passed `isinstance(v, (int, float))`:
`float(True) = 1.0`, `float(False) = 0.0`. -/
def py_float : JVal → ℚ
  | JVal.num q => q
  | JVal.bool b => if b then 1 else 0
  | _ => 0

/-- The host actions the listener can invoke via `os.system`. -/
inductive HostAct where
  | reboot : HostAct
  | shutdown : HostAct
deriving DecidableEq

/-- One constructor per distinct `sendto` format string of `command_listener`
in src/timemachine_udp_sender.py. -/
inductive Reply where
  | ackReboot : Reply
  | nackRebootDisabled : Reply
  | ackShutdown : Reply
  | nackShutdownDisabled : Reply
  | ackFreq (hz : ℚ) : Reply
  | nackFreq (v : Option JVal) : Reply
  | statusReply (freq : ℚ) (devCount : ℕ) (lastPos : ℤ) (lastBtn : ℕ) : Reply
  | nackUnknown (a : Option JVal) : Reply
  | nackBadJson : Reply
  | nackError : Reply

/-- Observable effects of processing one datagram, in program order. -/
inductive Ev where
  | sent (r : Reply) : Ev
  | host (a : HostAct) : Ev

/-- The shared runtime state the listener reads and writes:
`g_send_frequency_hz`, `g_enable_system_commands`, and the status fields
`g_initialized_device_count`, `g_last_position`, `g_last_button_pressed`. -/
structure LState where
  freq : ℚ
  enableSys : Bool
  devCount : ℕ
  lastPos : ℤ
  lastBtn : ℕ
deriving DecidableEq

/-- The `set_frequency` branch (src/timemachine_udp_sender.py lines 252-260):
accept iff `isinstance(hz, (int, float)) and hz >= 0`, write the float value
under the lock and acknowledge echoing it, otherwise reject naming the value
(a missing `hz` key is Python `None` and is likewise rejected naming it). -/
def handle_set_frequency (st : LState) (hz : Option JVal) : LState × List Ev :=
  match hz with
  | some v =>
      if py_is_num v && py_nonneg v then
        ({ st with freq := py_float v }, [Ev.sent (Reply.ackFreq (py_float v))])
      else
        (st, [Ev.sent (Reply.nackFreq (some v))])
  | none => (st, [Ev.sent (Reply.nackFreq none)])

/-- Dispatch on `command_json.get("command")`
(src/timemachine_udp_sender.py lines 234-280).  Reboot and shutdown are gated
by `g_enable_system_commands`; when enabled the acknowledgement is sent
before `os.system` runs.  Any non-string or unrecognized command value falls
through to the unknown-command rejection. -/
def handle_command (st : LState) (action : Option JVal)
    (fields : List (String × JVal)) : LState × List Ev :=
  match action with
  | some (JVal.str a) =>
      if a = "reboot" then
        if st.enableSys then
          (st, [Ev.sent Reply.ackReboot, Ev.host HostAct.reboot])
        else
          (st, [Ev.sent Reply.nackRebootDisabled])
      else if a = "shutdown" then
        if st.enableSys then
          (st, [Ev.sent Reply.ackShutdown, Ev.host HostAct.shutdown])
        else
          (st, [Ev.sent Reply.nackShutdownDisabled])
      else if a = "set_frequency" then
        handle_set_frequency st (jget fields "hz")
      else if a = "get_status" then
        (st, [Ev.sent (Reply.statusReply st.freq st.devCount st.lastPos st.lastBtn)])
      else
        (st, [Ev.sent (Reply.nackUnknown (some (JVal.str a)))])
  | other => (st, [Ev.sent (Reply.nackUnknown other)])

/-- Processing of a successfully parsed JSON document.  `json.loads` of a
non-object (number, string, array, ...) has no `.get` attribute, so
`command_json.get("command")` raises `AttributeError`, which the inner
`except Exception` turns into the generic processing-error rejection. -/
def handle_json (st : LState) (j : JVal) : LState × List Ev :=
  match j with
  | JVal.obj fields => handle_command st (jget fields "command") fields
  | _ => (st, [Ev.sent Reply.nackError])

/-- One received datagram, classified by how far the listener can take it:
its bytes fail `data.decode("utf-8")`, or they decode but fail `json.loads`,
or they parse to a JSON value. -/
inductive Dgram where
  | notUtf8 : Dgram
  | badJson (s : String) : Dgram
  | ok (j : JVal) : Dgram

/-- One iteration of the `command_listener` receive loop on a received
datagram.  `data.decode("utf-8")` runs outside the inner try/except
(src/timemachine_udp_sender.py line 229), so a `UnicodeDecodeError` is caught
by the outer `except Exception` (line 290), which only logs and sleeps:
no reply is sent.  A `json.JSONDecodeError` is answered with the
invalid-JSON rejection (line 283). -/
def command_listener_step (st : LState) : Dgram → LState × List Ev
  | Dgram.notUtf8 => (st, [])
  | Dgram.badJson _ => (st, [Ev.sent Reply.nackBadJson])
  | Dgram.ok j => handle_json st j

/-- Number of replies sent among the effects of one datagram. -/
def sentCount (evs : List Ev) : ℕ :=
  (evs.filter fun e =>
    match e with
    | Ev.sent _ => true
    | Ev.host _ => false).length

/-- Number of host actions invoked among the effects of one datagram. -/
def hostCount (evs : List Ev) : ℕ :=
  (evs.filter fun e =>
    match e with
    | Ev.sent _ => false
    | Ev.host _ => true).length

/-- The JSON command datagram for reboot. -/
def rebootCmd : JVal := JVal.obj [("command", JVal.str "reboot")]

/-- The JSON command datagram for shutdown. -/
def shutdownCmd : JVal := JVal.obj [("command", JVal.str "shutdown")]

/-- The JSON command datagram for set_frequency with argument `v`. -/
def setFreqCmd (v : JVal) : JVal :=
  JVal.obj [("command", JVal.str "set_frequency"), ("hz", v)]

/-- Is the JSON value a JSON number literal (excluding booleans)?  Used to
state claims whose notion of "numeric" is the JSON one. -/
def jsonIsNumber : JVal → Bool
  | JVal.num _ => true
  | _ => false

/-! ## Tick pacing (src/tamaki_udp_sender.py lines 147-191,
src/timemachine_udp_sender.py lines 316-341) -/

/-- `desired_delay_s`: `1.0 / freq` when the target frequency is positive,
otherwise `0.0` ("max speed"). -/
def desired_delay (freq : ℚ) : ℚ :=
  if freq > 0 then 1 / freq else 0

/-- The duration actually passed to `time.sleep` at the end of a tick: the
code sleeps only when `desired_delay_s > 0` and only when
`desired_delay_s - loop_time_taken > 0`. -/
def sleep_duration (freq elapsed : ℚ) : ℚ :=
  if desired_delay freq > 0 then
    if desired_delay freq - elapsed > 0 then desired_delay freq - elapsed else 0
  else 0

/-! ## Rounding and the JSON number wire form -/

/-- The Python `round` to an integer: round half to even
(bankers rounding). -/
def py_round_int (q : ℚ) : ℤ :=
  let n := ⌊q⌋
  if q - n < 1 / 2 then n
  else if 1 / 2 < q - n then n + 1
  else if n % 2 = 0 then n else n + 1

/-- The Python `round(x, 3)`: round to the nearest multiple of 1/1000
(ties to even). -/
def round3 (q : ℚ) : ℚ :=
  (py_round_int (q * 1000) : ℚ) / 1000

/-- The wire form of one JSON number with at most three fractional decimal
digits: a sign, the integer part, and the fraction in thousandths.  This
models the decimal text `json.dumps` emits for such a value (the decimal
expansion is exact, so serialization loses nothing). -/
structure Dec3 where
  neg : Bool
  intPart : ℕ
  fracThousandths : ℕ
deriving DecidableEq

/-- Serialize a value with at most three fractional decimal digits to its
decimal wire form. -/
def encodeDec3 (q : ℚ) : Dec3 :=
  let m : ℤ := ⌊q * 1000⌋
  ⟨decide (m < 0), m.natAbs / 1000, m.natAbs % 1000⟩

/-- Parse the decimal wire form back to the rational it denotes, as the
JSON parser of the consumer does. -/
def decodeDec3 (d : Dec3) : ℚ :=
  (if d.neg then -1 else 1) * ((d.intPart : ℚ) + (d.fracThousandths : ℚ) / 1000)

/-! ## Magnetometer payload construction

src/tamaki_udp_sender.py lines 156-172 and
src/blackberryBackup/tamaki_udp_sender.py lines 114-133: one configured
sensor is a (id, possibly-None handle) pair; each tick reads `sensor.magnetic`
for present handles, defaulting the triple to zeros when the handle is absent
or the read raises, and appends one list of axis records per configured
sensor. -/

/-- A raw magnetometer triple (modelled over the rationals). -/
abbrev Triple := ℚ × ℚ × ℚ

/-- One entry of the sensor table built at startup: a pair of `id_str`
and a sensor object that may be `None`.  `bound = true` means the handle is not `None`. -/
structure SensorCfg where
  idStr : String
  bound : Bool
deriving DecidableEq

/-- The hardware oracle for one tick: `hw id = some t` means
`sensor_obj.magnetic` returns `t`; `none` means the read raises. -/
abbrev MagOracle := String → Option Triple

/-- The raw triple a tick obtains for one configured sensor: the default
zeros, overwritten by `sensor_obj.magnetic` when the handle exists and the
read does not raise. -/
def readingOf (hw : MagOracle) (c : SensorCfg) : Triple :=
  if c.bound then
    match hw c.idStr with
    | some t => t
    | none => (0, 0, 0)
  else (0, 0, 0)

/-- The three `{"axis": _, "val": round(_, 3)}` records appended for one
sensor. -/
def axisRecords (t : Triple) : List (String × ℚ) :=
  [("x", round3 t.1), ("y", round3 t.2.1), ("z", round3 t.2.2)]

/-- `read_sensors_and_build_json` of the blackberry variant (the plain
tamaki variant inlines the same loop): one payload entry per configured
sensor, in table order. -/
def read_sensors_and_build_json (configs : List SensorCfg) (hw : MagOracle) :
    List (String × List (String × ℚ)) :=
  match configs with
  | [] => []
  | c :: cs => (c.idStr, axisRecords (readingOf hw c)) :: read_sensors_and_build_json cs hw

/-! ## The release_mk2 variant

src/release_mk2(i2c+Mux)/tamaki_udp_sender.py lines 140-184: only sensors
whose construction succeeds are appended to `g_active_sensor_objects`;
lines 188-221: the payload loop iterates over that list only. -/

/-- Startup initialization of the release_mk2 variant: `probe id = true`
models a TLV493D construction that succeeds (any of the failure paths -
missing multiplexer, invalid channel, `ValueError`, other exception - skips
the sensor without recording it). -/
def initialize_mk2 (defs : List String) (probe : String → Bool) : List String :=
  match defs with
  | [] => []
  | d :: ds =>
      if probe d then d :: initialize_mk2 ds probe
      else initialize_mk2 ds probe

/-- `read_sensors_and_build_json` of the release_mk2 variant: one entry per
active (successfully initialized) sensor; a read failure defaults to zeros. -/
def read_sensors_and_build_json_mk2 (active : List String) (hw : MagOracle) :
    List (String × List (String × ℚ)) :=
  match active with
  | [] => []
  | a :: as =>
      (a, axisRecords (match hw a with
        | some t => t
        | none => (0, 0, 0))) :: read_sensors_and_build_json_mk2 as hw

/-! ## Rotary encoder read (src/timemachine_udp_sender.py lines 181-208) -/

/-- The rotary globals `g_last_position` and `g_last_button_pressed`
(1 pressed, 0 released). -/
structure RotSt where
  lastPos : ℤ
  lastBtn : ℕ
deriving DecidableEq

/-- `read_rotary`: each of the two hardware accesses is separately wrapped in
try/except; on failure the last known value is used and the global is left
unchanged.  `posR = some p` models `g_encoder.position` returning `p`;
`btnR = some v` models `g_button.value` returning `v` (pullup inversion:
value `True` means not pressed). -/
def read_rotary (st : RotSt) (posR : Option ℤ) (btnR : Option Bool) :
    (ℤ × ℕ) × RotSt :=
  let pos := match posR with
    | some p => p
    | none => st.lastPos
  let st1 := match posR with
    | some p => { st with lastPos := p }
    | none => st
  let btn := match btnR with
    | some v => if v then 0 else 1
    | none => st.lastBtn
  let st2 := match btnR with
    | some v => { st1 with lastBtn := if v then 0 else 1 }
    | none => st1
  ((pos, btn), st2)

/-! ## OSC message construction (src/timemachine_udp_sender.py lines 49-85)

Bytes are modelled as natural numbers below 256.  The addresses and tag
strings the program uses are ASCII, for which the UTF-8 encoding is the code
point itself. -/

/-- `_osc_pad4`: pad a byte string with NULs to a 4-byte boundary. -/
def osc_pad4 (data : List ℕ) : List ℕ :=
  data ++ List.replicate ((4 - data.length % 4) % 4) 0

/-- `s.encode("utf-8")` for the ASCII strings the program passes. -/
def strBytes (s : String) : List ℕ :=
  s.data.map Char.toNat

/-- `address.startswith("/")`. -/
def startsWithSlash (s : String) : Bool :=
  match s.data with
  | [] => false
  | c :: _ => c = '/'

/-- One OSC argument: `struct.pack(">i", int(v))` takes the integer value;
`struct.pack(">f", float(v))` emits the big-endian bytes of the
IEEE 754 binary32 bit pattern of the value, which the argument carries directly. -/
inductive OscArg where
  | i (n : ℤ) : OscArg
  | f (bits : ℕ) : OscArg

/-- `struct.pack(">i", n)`: 4 bytes, big endian, twos complement. -/
def int32be (n : ℤ) : List ℕ :=
  let u := (n % 2 ^ 32).toNat
  [u / 2 ^ 24 % 256, u / 2 ^ 16 % 256, u / 2 ^ 8 % 256, u % 256]

/-- `struct.pack(">f", v)`: the 4 bytes of the binary32 bit pattern,
big endian. -/
def word32be (u : ℕ) : List ℕ :=
  [u % 2 ^ 32 / 2 ^ 24, u / 2 ^ 16 % 256, u / 2 ^ 8 % 256, u % 256]

/-- The argument-packing loop `for t, v in zip(type_tags, args)`: tag `i`
appends an int32, tag `f` appends a float32, any other tag raises
`ValueError`. -/
def packArgs : List Char → List OscArg → Except String (List ℕ)
  | [], _ => Except.ok []
  | 'i' :: ts, OscArg.i n :: vs => (packArgs ts vs).map (fun rest => int32be n ++ rest)
  | 'f' :: ts, OscArg.f b :: vs => (packArgs ts vs).map (fun rest => word32be b ++ rest)
  | c :: _, _ =>
      if c = 'i' || c = 'f' then Except.error "argument kind does not match its type tag"
      else Except.error "Unsupported OSC type tag"

/-- `osc_message(address, type_tags, *args)`: NUL-terminate and pad the
address, NUL-terminate and pad the comma-prefixed tag string, then append
the packed arguments; rejects addresses not starting with a slash and a
tag/argument count mismatch. -/
def osc_message (address : String) (typeTags : String) (args : List OscArg) :
    Except String (List ℕ) :=
  if startsWithSlash address = false then
    Except.error "OSC address must start with a slash"
  else if typeTags.data.length ≠ args.length then
    Except.error "OSC type_tags length must match number of args"
  else
    (packArgs typeTags.data args).map (fun argBin =>
      osc_pad4 (strBytes address ++ [0])
        ++ osc_pad4 (Char.toNat ',' :: strBytes typeTags ++ [0])
        ++ argBin)

/-- The bytes a well-matched argument contributes to the frame. -/
def packOne : OscArg → List ℕ
  | OscArg.i n => int32be n
  | OscArg.f b => word32be b

/-- Does one type tag match the kind of its argument? -/
def tagOk (c : Char) : OscArg → Bool
  | OscArg.i _ => c = 'i'
  | OscArg.f _ => c = 'f'

/-- Does each type tag match the kind of its argument (the only situations
the zip loop packs without raising)? -/
def tagsMatch : List Char → List OscArg → Bool
  | [], [] => true
  | c :: ts, v :: vs => tagOk c v && tagsMatch ts vs
  | _, _ => false

/-- Reading 4 bytes back as a big-endian twos-complement 32-bit integer. -/
def beDecodeSigned : List ℕ → ℤ
  | [b0, b1, b2, b3] =>
      let u : ℤ := (b0 * 2 ^ 24 + b1 * 2 ^ 16 + b2 * 2 ^ 8 + b3 : ℕ)
      if 2 ^ 31 ≤ u then u - 2 ^ 32 else u
  | _ => 0

/-- Reading 4 bytes back as a big-endian unsigned 32-bit integer. -/
def beDecodeUnsigned : List ℕ → ℕ
  | [b0, b1, b2, b3] => b0 * 2 ^ 24 + b1 * 2 ^ 16 + b2 * 2 ^ 8 + b3
  | _ => 0

/-! ## The timemachine main loop (src/timemachine_udp_sender.py
lines 314-341): every iteration reads the rotary and unconditionally sends
the two OSC messages; there is no comparison against previously sent
values. -/

/-- The bytes `sendto` is given for one channel (the messages the loop
builds always pass the checks in `osc_message`; on an error the try/except
would skip both sends). -/
def sentBytes (address : String) (v : ℤ) : List ℕ :=
  match osc_message address "i" [OscArg.i v] with
  | Except.ok bs => bs
  | Except.error _ => []

/-- One iteration of the main loop: read the rotary, then send
`/rotary/pos` and `/rotary/btn` datagrams unconditionally. -/
def main_loop_tick (st : RotSt) (posR : Option ℤ) (btnR : Option Bool) :
    RotSt × List (List ℕ) :=
  let r := read_rotary st posR btnR
  (r.2, [sentBytes "/rotary/pos" r.1.1, sentBytes "/rotary/btn" (r.1.2 : ℤ)])

/-- The main loop over a finite trace of per-tick hardware outcomes,
collecting every datagram passed to `sendto` in order. -/
def main_loop_run (st : RotSt) : List (Option ℤ × Option Bool) → RotSt × List (List ℕ)
  | [] => (st, [])
  | r :: rs =>
      let t := main_loop_tick st r.1 r.2
      let rest := main_loop_run t.1 rs
      (rest.1, t.2 ++ rest.2)

/-! ## Helper lemmas -/

lemma sentCount_handle_set_frequency (st : LState) (hz : Option JVal) :
    sentCount (handle_set_frequency st hz).2 = 1 := by
  cases hz with
  | none => rfl
  | some v =>
      unfold handle_set_frequency
      repeat' split
      all_goals rfl

lemma sentCount_handle_command (st : LState) (a : Option JVal)
    (fields : List (String × JVal)) :
    sentCount (handle_command st a fields).2 = 1 := by
  cases a with
  | none => rfl
  | some v =>
      cases v with
      | null => rfl
      | bool b => rfl
      | num q => rfl
      | arr xs => rfl
      | obj fs => rfl
      | str s =>
          simp only [handle_command]
          repeat' split
          all_goals first
            | rfl
            | apply sentCount_handle_set_frequency

lemma sentCount_handle_json (st : LState) (j : JVal) :
    sentCount (handle_json st j).2 = 1 := by
  cases j with
  | obj fields => exact sentCount_handle_command st (jget fields "command") fields
  | null => rfl
  | bool b => rfl
  | num q => rfl
  | str s => rfl
  | arr xs => rfl

/-! ## Claim theorems -/

/-- C3: for every received reboot or shutdown command, when
`g_enable_system_commands` is false the listener replies with the rejection
naming the configuration gate and invokes no host action; when it is true the
effects of the listener are the acknowledgement reply followed by the host action,
in that order (the reply is sent before `os.system` runs). -/
theorem reboot_shutdown_policy_gate (st : LState) :
    handle_json st rebootCmd =
      (if st.enableSys then (st, [Ev.sent Reply.ackReboot, Ev.host HostAct.reboot])
       else (st, [Ev.sent Reply.nackRebootDisabled])) ∧
    handle_json st shutdownCmd =
      (if st.enableSys then (st, [Ev.sent Reply.ackShutdown, Ev.host HostAct.shutdown])
       else (st, [Ev.sent Reply.nackShutdownDisabled])) := by
  cases hb : st.enableSys <;>
    constructor <;>
    simp [handle_json, handle_command, rebootCmd, shutdownCmd, jget, hb]

/-- C10: the set_frequency validation accepts JSON booleans, because
`isinstance(hz, (int, float))` is satisfied by Python `bool` (a subclass of
`int`): the command with `hz = true` is acknowledged and sets the shared
target frequency to `float(True) = 1.0`. -/
theorem set_frequency_accepts_booleans :
    handle_json ⟨10, false, 1, 0, 0⟩ (setFreqCmd (JVal.bool true)) =
      (⟨1, false, 1, 0, 0⟩, [Ev.sent (Reply.ackFreq 1)]) := by
  rfl

/-- Counterexample to C4 as stated: `hz = true` is not a JSON number, yet the
command is not rejected - the listener acknowledges it and the shared target
frequency changes from 120 to 1. -/
theorem set_frequency_bool_not_rejected :
    jsonIsNumber (JVal.bool true) = false ∧
    handle_json ⟨120, false, 1, 0, 0⟩ (setFreqCmd (JVal.bool true)) =
      (⟨1, false, 1, 0, 0⟩, [Ev.sent (Reply.ackFreq 1)]) ∧
    (120 : ℚ) ≠ 1 := by
  refine ⟨rfl, rfl, by norm_num⟩

/-- C4 (amended): `set_frequency(hz)` is accepted exactly when `hz` passes
the Python `isinstance(hz, (int, float))` test - JSON numbers and JSON booleans,
with `true` as 1 and `false` as 0 - and is nonnegative; on acceptance the
shared target frequency becomes `float(hz)` and the acknowledgement echoes
the applied value; otherwise a rejection naming the offending value is sent
and the frequency is unchanged.  After `set_frequency(0)` the next tick
computes a zero desired delay and applies no inter-tick sleep. -/
theorem set_frequency_validation (st : LState) (v : JVal) (e : ℚ) :
    handle_json st (setFreqCmd v) =
      (if py_is_num v && py_nonneg v then
        ({ st with freq := py_float v }, [Ev.sent (Reply.ackFreq (py_float v))])
       else (st, [Ev.sent (Reply.nackFreq (some v))])) ∧
    sleep_duration 0 e = 0 := by
  constructor
  · rfl
  · simp [sleep_duration, desired_delay]

/-- Counterexample to C5 as stated: a datagram whose bytes are not valid
UTF-8 is an unparsable payload, yet it is answered with silence - the decode
error is raised before the inner try/except and the outer handler sends
nothing. -/
theorem non_utf8_datagram_answered_with_silence :
    sentCount (command_listener_step ⟨120, false, 1, 0, 0⟩ Dgram.notUtf8).2 = 0 ∧
    (0 : ℕ) ≠ 1 := by
  exact ⟨rfl, by decide⟩

/-- C5 (amended): for every received datagram whose bytes decode as UTF-8 -
whether it fails JSON parsing, parses to a non-object, or carries a valid,
unknown, or malformed command - the listener sends exactly one reply and
returns to its receive loop.  Only a datagram that is not valid UTF-8 is
answered with silence. -/
theorem listener_one_reply_per_utf8_datagram (st : LState) (s : String) (j : JVal) :
    sentCount (command_listener_step st (Dgram.badJson s)).2 = 1 ∧
    sentCount (command_listener_step st (Dgram.ok j)).2 = 1 :=
  ⟨rfl, sentCount_handle_json st j⟩

/-- Counterexample to C1 as stated: in the release_mk2 variant, a configured
sensor whose construction fails at startup is never added to the active list,
so every published payload omits its id entirely - it does not appear with a
default zero triple. -/
theorem mk2_payload_omits_bind_failed_sensor :
    initialize_mk2 ["Sensor_0"] (fun _ => false) = [] ∧
    List.lookup "Sensor_0"
      (read_sensors_and_build_json_mk2 (initialize_mk2 ["Sensor_0"] (fun _ => false))
        (fun _ => none)) = none := by
  exact ⟨rfl, rfl⟩

/-- C1 (amended): in the plain tamaki and blackberry variants the payload of
every tick contains exactly one entry per configured sensor, in table order,
and a sensor whose binding failed (handle `None`) contributes the default
zero triple; in the release_mk2 variant the entries of the payload are exactly
the sensors whose construction succeeded, so a sensor whose binding failed
at startup is omitted from every payload. -/
theorem snapshot_one_reading_per_configured_sensor :
    (∀ (configs : List SensorCfg) (hw : MagOracle),
      (read_sensors_and_build_json configs hw).map Prod.fst =
        configs.map SensorCfg.idStr) ∧
    (∀ (id : String) (hw : MagOracle), readingOf hw ⟨id, false⟩ = (0, 0, 0)) ∧
    (∀ (defs : List String) (probe : String → Bool) (hw : MagOracle),
      (read_sensors_and_build_json_mk2 (initialize_mk2 defs probe) hw).map Prod.fst =
        defs.filter probe) := by
  refine ⟨?_, ?_, ?_⟩
  · intro configs hw
    induction configs with
    | nil => rfl
    | cons c cs ih => simp [read_sensors_and_build_json, ih]
  · intro id hw
    rfl
  · intro defs probe hw
    induction defs with
    | nil => rfl
    | cons d ds ih =>
        by_cases h : probe d = true
        · simp [initialize_mk2, read_sensors_and_build_json_mk2, List.filter, h, ih]
        · simp only [Bool.not_eq_true] at h
          simp [initialize_mk2, List.filter, h, ih]

/-- C2: a read failure on one sensor is contained inside the read
step of that sensor.  For the magnetometer variants: a bound sensor whose read raises gets
the default zero triple; the payload still has one entry per configured
sensor in table order (the tick completes and publishes); and the
entry of a sensor depends only on its own read outcome, so a fault of
another sensor cannot
change it.  For the rotary variant: when both hardware accesses raise,
`read_rotary` returns the last known position and button value and leaves
the globals unchanged. -/
theorem read_failure_contained (configs : List SensorCfg) (hw hw2 : MagOracle)
    (c : SensorCfg) (st : RotSt) :
    (c.bound = true → hw c.idStr = none → readingOf hw c = (0, 0, 0)) ∧
    (read_sensors_and_build_json configs hw).map Prod.fst =
      configs.map SensorCfg.idStr ∧
    (hw c.idStr = hw2 c.idStr → readingOf hw c = readingOf hw2 c) ∧
    read_rotary st none none = ((st.lastPos, st.lastBtn), st) := by
  refine ⟨?_, ?_, ?_, rfl⟩
  · intro hb hn
    simp [readingOf, hb, hn]
  · induction configs with
    | nil => rfl
    | cons d ds ih => simp [read_sensors_and_build_json, ih]
  · intro h
    simp [readingOf, h]

/-- Witness for the C2 theorem at a concrete table: two bound sensors, the
first of which fails its read while the second reads (1, 2, 3). -/
theorem read_failure_contained_witness :
    readingOf (fun _ => none) ⟨"Sensor_0", true⟩ = (0, 0, 0) ∧
    (read_sensors_and_build_json [⟨"Sensor_0", true⟩, ⟨"Sensor_1", true⟩]
        (fun _ => none)).map Prod.fst =
      ([⟨"Sensor_0", true⟩, ⟨"Sensor_1", true⟩] : List SensorCfg).map SensorCfg.idStr ∧
    readingOf (fun _ => none) ⟨"Sensor_1", false⟩ =
      readingOf (fun id => if id = "Sensor_1" then none else some (1, 2, 3))
        ⟨"Sensor_1", false⟩ ∧
    read_rotary ⟨7, 1⟩ none none = ((7, 1), ⟨7, 1⟩) := by
  have h := read_failure_contained
    [⟨"Sensor_0", true⟩, ⟨"Sensor_1", true⟩]
    (fun _ => none) (fun id => if id = "Sensor_1" then none else some (1, 2, 3))
    ⟨"Sensor_1", false⟩ ⟨7, 1⟩
  exact ⟨(read_failure_contained [] (fun _ => none) (fun _ => none)
      ⟨"Sensor_0", true⟩ ⟨7, 1⟩).1 rfl rfl,
    h.2.1, h.2.2.1 rfl, h.2.2.2⟩

/-- C6: with `desiredPeriod = 1/targetFrequencyHz` when the target frequency
is positive and 0 otherwise, the end-of-tick sleep equals
`max(0, desiredPeriod - elapsed)`; in particular it is zero when the target
frequency is 0 and when the elapsed time meets or exceeds the period, so the
loop never sleeps a negative duration and never runs faster than the target
rate. -/
theorem tick_pacing (freq elapsed : ℚ) (he : 0 ≤ elapsed) :
    sleep_duration freq elapsed = max 0 (desired_delay freq - elapsed) ∧
    (freq = 0 → sleep_duration freq elapsed = 0) ∧
    (desired_delay freq ≤ elapsed → sleep_duration freq elapsed = 0) := by
  have hdnn : 0 ≤ desired_delay freq := by
    unfold desired_delay
    split
    · positivity
    · exact le_refl 0
  refine ⟨?_, ?_, ?_⟩
  · unfold sleep_duration
    rcases lt_or_le 0 (desired_delay freq) with hd | hd
    · rw [if_pos hd]
      rcases lt_or_le elapsed (desired_delay freq) with hs | hs
      · rw [if_pos (by linarith), max_eq_right (by linarith)]
      · rw [if_neg (by linarith), max_eq_left (by linarith)]
    · have hz : desired_delay freq = 0 := le_antisymm hd hdnn
      rw [if_neg (by rw [hz]; exact lt_irrefl 0), hz, max_eq_left (by linarith)]
  · intro h0
    unfold sleep_duration desired_delay
    rw [h0]
    norm_num
  · intro hle
    unfold sleep_duration
    split
    · rw [if_neg (by linarith)]
    · rfl

/-- Witness for the C6 theorem: target 10 Hz and 1/100 s of tick work, where
the sleep is 1/10 - 1/100 = 9/100. -/
theorem tick_pacing_witness :
    (0 : ℚ) ≤ 1 / 100 ∧
    (sleep_duration 10 (1 / 100) = max 0 (desired_delay 10 - 1 / 100) ∧
      ((10 : ℚ) = 0 → sleep_duration 10 (1 / 100) = 0) ∧
      (desired_delay 10 ≤ 1 / 100 → sleep_duration 10 (1 / 100) = 0)) :=
  ⟨by norm_num, tick_pacing 10 (1 / 100) (by norm_num)⟩

/-- Counterexample to C7 as stated: in the only rotary variant, two
consecutive ticks with identical readings (position 5, button released) both
transmit the same `/rotary/pos` payload - two transmissions, not one; the
repeat is not suppressed. -/
theorem identical_snapshots_sent_twice :
    ((main_loop_run ⟨0, 0⟩ [(some 5, some true), (some 5, some true)]).2.filter
        (· == sentBytes "/rotary/pos" 5)).length = 2 ∧
    (2 : ℕ) ≠ 1 := by
  exact ⟨rfl, by decide⟩

/-- C7 (amended): the timemachine publisher has no send-on-change mode:
every tick unconditionally transmits its Snapshot as two OSC datagrams
(`/rotary/pos` and `/rotary/btn`), with no comparison against previously
transmitted values, so a trace of n ticks always transmits exactly 2n
datagrams however the readings repeat, and button messages carry the current
level each tick rather than discrete pressed/released edge events. -/
theorem every_tick_transmits (st : RotSt) (reads : List (Option ℤ × Option Bool)) :
    (main_loop_run st reads).2.length = 2 * reads.length := by
  induction reads generalizing st with
  | nil => rfl
  | cons r rs ih =>
      simp [main_loop_run, main_loop_tick, ih]
      ring

lemma tagsMatch_length {ts : List Char} {args : List OscArg}
    (h : tagsMatch ts args = true) : ts.length = args.length := by
  induction ts generalizing args with
  | nil =>
      cases args with
      | nil => rfl
      | cons v vs => simp [tagsMatch] at h
  | cons c cs ih =>
      cases args with
      | nil => simp [tagsMatch] at h
      | cons v vs =>
          simp only [tagsMatch, Bool.and_eq_true] at h
          simp [ih h.2]

lemma packArgs_ok {ts : List Char} {args : List OscArg}
    (h : tagsMatch ts args = true) :
    packArgs ts args = Except.ok (args.flatMap packOne) := by
  induction ts generalizing args with
  | nil =>
      cases args with
      | nil => rfl
      | cons v vs => simp [tagsMatch] at h
  | cons c cs ih =>
      cases args with
      | nil => simp [tagsMatch] at h
      | cons v vs =>
          simp only [tagsMatch, Bool.and_eq_true] at h
          obtain ⟨h1, h2⟩ := h
          cases v with
          | i n =>
              have hc : c = 'i' := by simpa [tagOk] using h1
              subst hc
              simp [packArgs, ih h2, packOne, Except.map]
          | f b =>
              have hc : c = 'f' := by simpa [tagOk] using h1
              subst hc
              simp [packArgs, ih h2, packOne, Except.map]

lemma packOne_length (a : OscArg) : (packOne a).length = 4 := by
  cases a <;> rfl

lemma osc_pad4_length (data : List ℕ) : (osc_pad4 data).length % 4 = 0 := by
  simp only [osc_pad4, List.length_append, List.length_replicate]
  omega

lemma beDecodeSigned_int32be (n : ℤ) (h1 : -2 ^ 31 ≤ n) (h2 : n < 2 ^ 31) :
    beDecodeSigned (int32be n) = n := by
  simp only [int32be, beDecodeSigned]
  push_cast
  omega

lemma beDecodeUnsigned_word32be (u : ℕ) (h : u < 2 ^ 32) :
    beDecodeUnsigned (word32be u) = u := by
  simp only [word32be, beDecodeUnsigned]
  omega

/-- C8: for every OSC message built from an address starting with a slash and
type tags matching the arguments, the frame is the NUL-terminated address
padded with at most three zero bytes to a 4-byte boundary, then the
comma-prefixed type-tag string NUL-terminated and padded to a 4-byte
boundary, then the concatenated argument bytes, where each `i` argument is a
4-byte big-endian twos-complement integer and each `f` argument is the
4 big-endian bytes of its IEEE 754 binary32 bit pattern. -/
theorem osc_message_frame (address typeTags : String) (args : List OscArg)
    (ha : startsWithSlash address = true)
    (ht : tagsMatch typeTags.data args = true) :
    ∃ padA padT : ℕ, padA < 4 ∧ padT < 4 ∧
      osc_message address typeTags args =
        Except.ok ((strBytes address ++ [0] ++ List.replicate padA 0)
          ++ ((Char.toNat ',' :: strBytes typeTags ++ [0]) ++ List.replicate padT 0)
          ++ args.flatMap packOne) ∧
      (strBytes address ++ [0] ++ List.replicate padA 0).length % 4 = 0 ∧
      ((Char.toNat ',' :: strBytes typeTags ++ [0]) ++ List.replicate padT 0).length % 4 = 0 ∧
      (∀ a ∈ args, (packOne a).length = 4) ∧
      (∀ n : ℤ, -2 ^ 31 ≤ n → n < 2 ^ 31 → beDecodeSigned (int32be n) = n) ∧
      (∀ u : ℕ, u < 2 ^ 32 → beDecodeUnsigned (word32be u) = u) := by
  refine ⟨(4 - (strBytes address ++ [0]).length % 4) % 4,
    (4 - (Char.toNat ',' :: strBytes typeTags ++ [0]).length % 4) % 4,
    by omega, by omega, ?_, ?_, ?_,
    fun a _ => packOne_length a,
    fun n hn1 hn2 => beDecodeSigned_int32be n hn1 hn2,
    fun u hu => beDecodeUnsigned_word32be u hu⟩
  · unfold osc_message
    rw [ha]
    simp only [Bool.true_eq_false, if_false]
    rw [if_neg (by simp [tagsMatch_length ht])]
    rw [packArgs_ok ht]
    simp [osc_pad4, Except.map, List.append_assoc]
  · have := osc_pad4_length (strBytes address ++ [0])
    simpa [osc_pad4, List.append_assoc] using this
  · have := osc_pad4_length (Char.toNat ',' :: strBytes typeTags ++ [0])
    simpa [osc_pad4] using this

/-- Witness for the C8 theorem at the message the program sends:
`osc_message("/rotary/pos", "i", 3)`. -/
theorem osc_message_frame_witness :
    startsWithSlash "/rotary/pos" = true ∧
    tagsMatch "i".data [OscArg.i 3] = true ∧
    (∃ padA padT : ℕ, padA < 4 ∧ padT < 4 ∧
      osc_message "/rotary/pos" "i" [OscArg.i 3] =
        Except.ok ((strBytes "/rotary/pos" ++ [0] ++ List.replicate padA 0)
          ++ ((Char.toNat ',' :: strBytes "i" ++ [0]) ++ List.replicate padT 0)
          ++ [OscArg.i 3].flatMap packOne) ∧
      (strBytes "/rotary/pos" ++ [0] ++ List.replicate padA 0).length % 4 = 0 ∧
      ((Char.toNat ',' :: strBytes "i" ++ [0]) ++ List.replicate padT 0).length % 4 = 0 ∧
      (∀ a ∈ [OscArg.i 3], (packOne a).length = 4) ∧
      (∀ n : ℤ, -2 ^ 31 ≤ n → n < 2 ^ 31 → beDecodeSigned (int32be n) = n) ∧
      (∀ u : ℕ, u < 2 ^ 32 → beDecodeUnsigned (word32be u) = u)) :=
  ⟨rfl, rfl, osc_message_frame "/rotary/pos" "i" [OscArg.i 3] rfl rfl⟩

lemma decode_encode_round3 (q : ℚ) :
    decodeDec3 (encodeDec3 (round3 q)) = round3 q := by
  set m : ℤ := py_round_int (q * 1000) with hm
  have h1 : round3 q = (m : ℚ) / 1000 := rfl
  rw [h1]
  have hfloor : ⌊(m : ℚ) / 1000 * 1000⌋ = m := by
    rw [div_mul_cancel₀ _ (by norm_num : (1000 : ℚ) ≠ 0)]
    exact Int.floor_intCast m
  unfold encodeDec3 decodeDec3
  simp only [hfloor, decide_eq_true_eq]
  have key : ((m.natAbs / 1000 : ℕ) : ℚ) + ((m.natAbs % 1000 : ℕ) : ℚ) / 1000 =
      (m.natAbs : ℚ) / 1000 := by
    have hdm : m.natAbs / 1000 * 1000 + m.natAbs % 1000 = m.natAbs :=
      Nat.div_add_mod' m.natAbs 1000
    field_simp
    exact_mod_cast hdm
  rcases lt_or_le m 0 with hneg | hpos
  · have habs : (m.natAbs : ℚ) = -(m : ℚ) := by
      rw [Int.cast_natAbs, abs_of_nonpos (by exact_mod_cast hneg.le)]
      push_cast
      ring
    rw [if_pos hneg, key, habs]
    ring
  · have habs : (m.natAbs : ℚ) = (m : ℚ) := by
      rw [Int.cast_natAbs, abs_of_nonneg (by exact_mod_cast hpos)]
    rw [if_neg (not_lt.mpr hpos), key, habs]
    ring

/-- C9: axis values are rounded to three fractional digits exactly at the
point of payload construction - every payload entry holds `round3` of the
raw triple the read produced, while the internal readings stay raw (the
rotary read returns the encoder position unrounded) - and serializing a
3-rounded value to its decimal JSON wire form and parsing it back on the
consumer side reproduces the same value. -/
theorem rounding_at_payload_construction :
    (∀ (configs : List SensorCfg) (hw : MagOracle),
      read_sensors_and_build_json configs hw =
        configs.map (fun c => (c.idStr,
          [("x", round3 (readingOf hw c).1), ("y", round3 (readingOf hw c).2.1),
           ("z", round3 (readingOf hw c).2.2)]))) ∧
    (∀ (st : RotSt) (p : ℤ) (btnR : Option Bool),
      ((read_rotary st (some p) btnR).1).1 = p) ∧
    (∀ q : ℚ, decodeDec3 (encodeDec3 (round3 q)) = round3 q) := by
  refine ⟨?_, ?_, decode_encode_round3⟩
  · intro configs hw
    induction configs with
    | nil => rfl
    | cons c cs ih => simp [read_sensors_and_build_json, axisRecords, ih]
  · intro st p btnR
    cases btnR <;> rfl

end Tamaki
